import Mathlib

/-
Verification of the Discord/Telegram message-relay program (src/main.py).

The Python program keeps four in-memory dictionaries correlating messages
across the two platforms, relays inbound Discord messages to Telegram
(`handle_discord_message`), relays deletions in both directions
(`handle_discord_message_delete`, `handle_telegram_message_delete`), relays
inbound Telegram messages to a Discord webhook (`handle_telegram_message`),
and drives a cursor-based poll loop (`telegram_polling`).

This file is a shallow embedding of that code: Python dicts become
association lists with Python-dict lookup/insert/delete semantics, outbound
network calls become an environment oracle (`Nat → SendResult`) supplying
the response of each successive call (a successful JSON response, a
non-success JSON response, or a raised exception), and each handler becomes
a pure function from the old state and the inbound event to the new state
plus the list of outbound requests and log lines it produced.
-/

/-- Python-dict lookup on an association list: the most recent binding for a
key wins (our `mapInsert` conses the fresh binding at the front). -/
def mapLookup {K V : Type} [DecidableEq K] : List (K × V) → K → Option V
  | [], _ => none
  | (k', v) :: rest, k => if k = k' then some v else mapLookup rest k

/-- Python-dict `del`: remove every binding of the key (a Python dict holds
at most one, so this matches `del d[k]`; deleting an absent key is modelled
as a no-op because every call site in main.py guards with `in` first). -/
def mapErase {K V : Type} [DecidableEq K] (m : List (K × V)) (k : K) : List (K × V) :=
  m.filter (fun p => decide (p.1 ≠ k))

/-- Python-dict assignment `d[k] = v`: silently overwrites any old binding. -/
def mapInsert {K V : Type} [DecidableEq K] (m : List (K × V)) (k : K) (v : V) : List (K × V) :=
  (k, v) :: mapErase m k

/-- A parsed Telegram API JSON response, as consumed by main.py: the `ok`
flag and, when `ok`, `result.message_id`. -/
structure TgResponse where
  ok : Bool
  message_id : Int
  deriving DecidableEq

/-- Outcome of one outbound HTTP call made through the Telegram client:
either a parsed JSON response (possibly with `ok: false`) or a raised
exception (network failure), which in the Python code jumps to the
enclosing `except` block. -/
inductive SendResult where
  | resp (r : TgResponse)
  | exn
  deriving DecidableEq

/-- The mutable state of `DiscordTelegramSync`: the four correlation
dictionaries and the poll offset (lines 195-204 of main.py).
`discord_to_telegram` is keyed by `str(message.id)` and stores
`(telegram_msg_id, username, user_id)`; `telegram_to_discord` is the
reverse; the webhook tables correlate Telegram message ids with webhook
post identifiers. -/
structure SyncState where
  discord_to_telegram : List (String × (Int × String × Int))
  telegram_to_discord : List (Int × (String × String × Int))
  telegram_to_webhook : List (Int × String)
  webhook_to_telegram : List (String × Int)
  telegram_offset : Int
  deriving DecidableEq

/-- A Discord attachment: its URL and optional declared content type. -/
structure Attachment where
  url : String
  content_type : Option String
  deriving DecidableEq

/-- The fields of an inbound Discord message that `handle_discord_message`
reads. `reference` is `message.reference.message_id` (absent collapses with
a missing reference, matching the `if message.reference and
message.reference.message_id` truthiness test, which also treats id 0 as
absent). -/
structure DiscordMessage where
  id : Int
  content : String
  author_display_name : String
  author_id : Int
  reference : Option Int
  attachments : List Attachment
  deriving DecidableEq

/-- One outbound Telegram send request (sendMessage / sendPhoto / sendVideo
/ sendDocument), with the reply_to field exactly as it lands in the request
payload (omitted when falsy). -/
inductive TgSend where
  | msg (chatId : Int) (text : String) (replyTo : Option Int)
  | photo (chatId : Int) (url : String) (caption : String) (replyTo : Option Int)
  | video (chatId : Int) (url : String) (caption : String) (replyTo : Option Int)
  | document (chatId : Int) (url : String) (caption : String) (replyTo : Option Int)
  deriving DecidableEq

/-- The Telegram client methods include `reply_to_message_id` in the
request only when it is truthy (`if reply_to_message_id:`), so `None` and
`0` both yield an unthreaded send. -/
def normReply (rt : Option Int) : Option Int :=
  match rt with
  | some k => if k = 0 then none else some k
  | none => none

/-- Line 282: the standalone text line `💬 <b>{name}</b>: {content}`. -/
def textLine (m : DiscordMessage) : String :=
  "💬 <b>" ++ m.author_display_name ++ "</b>: " ++ m.content

/-- Lines 300-302: per-attachment caption, `<b>{name}</b>: {content}` when
the message has text, empty otherwise. -/
def captionLine (m : DiscordMessage) : String :=
  if m.content ≠ "" then "<b>" ++ m.author_display_name ++ "</b>: " ++ m.content else ""

/-- Lines 285-289: resolve the reply target; a reference to an id with no
recorded correlation (or no reference at all) yields `none`. -/
def resolveReplyTo (s : SyncState) (m : DiscordMessage) : Option Int :=
  match m.reference with
  | some rid =>
    if rid ≠ 0 then
      match mapLookup s.discord_to_telegram (toString rid) with
      | some v => some v.1
      | none => none
    else none
  | none => none

/-- Python's `str.startswith`: does `s` start with `p`? (Stated on the
character lists so that it evaluates inside the kernel.) -/
def strStartsWith (s p : String) : Bool := p.data.isPrefixOf s.data

/-- Lines 304-322: classify one attachment by declared content type and
build the corresponding outbound request. An empty-string content type is
falsy in Python and takes the default document path. -/
def attachmentSend (chatId : Int) (a : Attachment) (caption : String)
    (replyTo : Option Int) : TgSend :=
  match a.content_type with
  | some ct =>
    if ct ≠ "" then
      if strStartsWith ct "image/" then TgSend.photo chatId a.url caption (normReply replyTo)
      else if strStartsWith ct "video/" then TgSend.video chatId a.url caption (normReply replyTo)
      else TgSend.document chatId a.url caption (normReply replyTo)
    else TgSend.document chatId a.url caption (normReply replyTo)
  | none => TgSend.document chatId a.url caption (normReply replyTo)

/-- Lines 299-322: the attachment loop. Each iteration issues one send and
overwrites the local `telegram_msg` with its response; a raised exception
aborts the loop (control jumps to the handler's `except`). Returns the
requests issued, the final value of `telegram_msg`, and whether an
exception was raised. -/
def attachmentLoop (env : Nat → SendResult) (chatId : Int) (cap : String) (rt : Option Int) :
    List Attachment → Nat → Option TgResponse → List TgSend × Option TgResponse × Bool
  | [], _, last => ([], last, false)
  | a :: rest, n, last =>
    match env n with
    | SendResult.exn => ([attachmentSend chatId a cap rt], last, true)
    | SendResult.resp r =>
      let res := attachmentLoop env chatId cap rt rest (n + 1) (some r)
      (attachmentSend chatId a cap rt :: res.1, res.2.1, res.2.2)

/-- Everything `handle_discord_message` produces: the new state, the
outbound Telegram requests in order, the log lines, the final value of the
`telegram_msg` local, and whether the `except` path was taken. -/
structure HandlerOutput where
  state : SyncState
  sends : List TgSend
  logs : List String
  lastResp : Option TgResponse
  raised : Bool
  deriving DecidableEq

/-- Lines 324-328: record the correlation in both directions after a
successful send. -/
def recordDirect (s : SyncState) (did : String) (tid : Int) (nm : String) (ui : Int) :
    SyncState :=
  { s with
    discord_to_telegram := mapInsert s.discord_to_telegram did (tid, nm, ui),
    telegram_to_discord := mapInsert s.telegram_to_discord tid (did, nm, ui) }

/-- Remove both halves of a direct correlation (the paired `del`s at lines
262-264 and 362-364). -/
def eraseDirect (s : SyncState) (did : String) (tid : Int) : SyncState :=
  { s with
    discord_to_telegram := mapErase s.discord_to_telegram did,
    telegram_to_discord := mapErase s.telegram_to_discord tid }

/-- Lines 280-298 plus the loop: the send phase of `handle_discord_message`.
If the message has text, send it standalone first (consuming call 0 of the
environment); then run the attachment loop. -/
def discordSendPhase (env : Nat → SendResult) (chatId : Int) (s : SyncState)
    (m : DiscordMessage) : List TgSend × Option TgResponse × Bool :=
  let rt := resolveReplyTo s m
  if m.content ≠ "" then
    let req0 := TgSend.msg chatId (textLine m) (normReply rt)
    match env 0 with
    | SendResult.exn => ([req0], none, true)
    | SendResult.resp r0 =>
      let res := attachmentLoop env chatId (captionLine m) rt m.attachments 1 (some r0)
      (req0 :: res.1, res.2.1, res.2.2)
  else
    attachmentLoop env chatId (captionLine m) rt m.attachments 0 none

/-- Lines 324-331: after the sends, record the correlation only when the
final response exists and has `ok`; if an exception was raised the handler
logs and leaves the state untouched. -/
def finishRecord (s : SyncState) (m : DiscordMessage) (sends : List TgSend)
    (last : Option TgResponse) (raised : Bool) : HandlerOutput :=
  if raised then ⟨s, sends, ["Error processing Discord message"], last, true⟩
  else
    match last with
    | some r =>
      if r.ok then
        ⟨recordDirect s (toString m.id) r.message_id m.author_display_name m.author_id,
          sends, [], some r, false⟩
      else ⟨s, sends, [], some r, false⟩
    | none => ⟨s, sends, [], none, false⟩

/-- Lines 272-331: `handle_discord_message`. -/
def handle_discord_message (env : Nat → SendResult) (chatId : Int) (s : SyncState)
    (m : DiscordMessage) : HandlerOutput :=
  finishRecord s m (discordSendPhase env chatId s m).1 (discordSendPhase env chatId s m).2.1
    (discordSendPhase env chatId s m).2.2

/-- Lines 245-270: `handle_discord_message_delete`. Returns the new state,
the outbound Telegram delete calls `(chat_id, message_id)`, and the log
lines. If the deleted Discord id has no correlation the handler does
nothing; on an `ok` delete response both halves are removed; on a
non-success response or an exception the correlation is left intact. -/
def handle_discord_message_delete (dr : SendResult) (chatId : Int) (s : SyncState)
    (mid : Int) : SyncState × List (Int × Int) × List String :=
  match mapLookup s.discord_to_telegram (toString mid) with
  | none => (s, [], [])
  | some v =>
    match dr with
    | SendResult.exn => (s, [(chatId, v.1)], ["Error deleting message in Telegram"])
    | SendResult.resp r =>
      if r.ok then
        (eraseDirect s (toString mid) v.1, [(chatId, v.1)],
          ["Message deleted in Telegram: " ++ toString v.1])
      else (s, [(chatId, v.1)], ["Failed to delete message in Telegram"])

/-- Lines 333-379: `handle_telegram_message_delete`. The update's
`deleted_message.message_id` (absent or 0 are both falsy and return early).
A direct correlation removes both direct halves (the webhook delete call is
attempted only when the channel object resolves, but removal does not
depend on its outcome); otherwise a relay correlation removes both webhook
halves. Returns the new state and whether the webhook delete was
attempted. -/
def handle_telegram_message_delete (s : SyncState) (mid : Option Int)
    (channelFound : Bool) : SyncState × Bool :=
  match mid with
  | none => (s, false)
  | some t =>
    if t = 0 then (s, false)
    else
      match mapLookup s.telegram_to_discord t with
      | some v => (eraseDirect s v.1 t, channelFound)
      | none =>
        match mapLookup s.telegram_to_webhook t with
        | some wid =>
          ({ s with telegram_to_webhook := mapErase s.telegram_to_webhook t,
                    webhook_to_telegram := mapErase s.webhook_to_telegram wid }, false)
        | none => (s, false)

/-- The single content payload of an inbound Telegram message, mirroring
the `elif` chain at lines 481-578 (text / photo / video / document / voice
/ animation / sticker; a real update carries at most one). -/
inductive TgContent where
  | noContent
  | text (t : String)
  | photo (fileId : String) (caption : String)
  | video (fileId : String) (caption : String)
  | document (fileId : String) (caption : String)
  | voice (fileId : String)
  | animation (fileId : String) (caption : String)
  | sticker (animatedOrVideo : Bool) (thumbFileId : Option String) (fileId : String)
      (emoji : Option String)

/-- The fields of an inbound Telegram message read by
`handle_telegram_message`. Captions default to `""` as in
`message.get('caption', '')`. -/
structure TgInMessage where
  message_id : Option Int
  chat_id : Int
  username : Option String
  first_name : Option String
  user_id : Int
  reply_to : Option Int
  content : TgContent

/-- One Telegram update as dispatched by `handle_telegram_message` (lines
436-443): either it carries a `deleted_message` payload, a `message`
payload, or neither. -/
inductive TgUpdatePayload where
  | deleted (mid : Option Int)
  | msg (m : TgInMessage)
  | empty

/-- The environment of one `handle_telegram_message` invocation: the
resolved avatar URL (`get_telegram_user_avatar` never raises — it falls
back to a deterministic placeholder), the file-download oracle
(`download_telegram_file` returns a local path or None), and the result of
the single webhook post the handler may make (`send_webhook_message`
returns an id on HTTP 200/204 and None otherwise; it never raises). -/
structure WebhookEnv where
  avatar : String
  download : String → Option String
  sendResult : Option String

/-- One Discord webhook post: the payload `send_webhook_message` is given. -/
structure WebhookPost where
  username : String
  avatar_url : String
  content : String
  filePath : Option String
  deriving DecidableEq

/-- Result of `handle_telegram_message`: new state plus the webhook posts
attempted (at most one per update). -/
structure TgHandlerOutput where
  state : SyncState
  posts : List WebhookPost

/-- Lines 466-475: the reply attribution prefix — the original author's
name for a direct correlation, a generic line for a relay correlation,
nothing otherwise. -/
def replyHeaderStr (s : SyncState) (rt : Option Int) : String :=
  match rt with
  | none => ""
  | some rid =>
    match mapLookup s.telegram_to_discord rid with
    | some v => "> 💬 Replying to **" ++ v.2.1 ++ "**\n\n"
    | none =>
      match mapLookup s.telegram_to_webhook rid with
      | some _ => "> 💬 Replying to previous message\n\n"
      | none => ""

/-- Lines 477-578: compose the (at most one) webhook post for the message's
content, or `none` when nothing is sent (no recognized content, empty text,
or a static sticker whose download failed). Captures the sticker special
case: an animated/video sticker falls back to a text-only `🎭` placeholder
when no thumbnail is obtainable. -/
def composeWebhookPost (wenv : WebhookEnv) (s : SyncState) (m : TgInMessage) :
    Option WebhookPost :=
  let uname := m.username.getD (m.first_name.getD "User")
  let rp := replyHeaderStr s m.reply_to
  match m.content with
  | TgContent.noContent => none
  | TgContent.text t =>
    if t ≠ "" then some ⟨uname, wenv.avatar, rp ++ t, none⟩ else none
  | TgContent.photo fid cap => some ⟨uname, wenv.avatar, rp ++ cap, wenv.download fid⟩
  | TgContent.video fid cap => some ⟨uname, wenv.avatar, rp ++ cap, wenv.download fid⟩
  | TgContent.document fid cap => some ⟨uname, wenv.avatar, rp ++ cap, wenv.download fid⟩
  | TgContent.voice fid => some ⟨uname, wenv.avatar, rp ++ "🎤 Audio", wenv.download fid⟩
  | TgContent.animation fid cap => some ⟨uname, wenv.avatar, rp ++ cap, wenv.download fid⟩
  | TgContent.sticker animatedOrVideo thumb fid emoji =>
    if animatedOrVideo then
      match thumb with
      | some tfid =>
        match wenv.download tfid with
        | some p => some ⟨uname, wenv.avatar, rp, some p⟩
        | none => some ⟨uname, wenv.avatar, rp ++ "🎭 " ++ emoji.getD "📷", none⟩
      | none => some ⟨uname, wenv.avatar, rp ++ "🎭 " ++ emoji.getD "📷", none⟩
    else
      match wenv.download fid with
      | some p => some ⟨uname, wenv.avatar, rp, some p⟩
      | none => none

/-- Lines 583-584: record the relay correlation between the source Telegram
message id and the webhook post id. -/
def recordRelay (s : SyncState) (mid : Int) (wid : String) : SyncState :=
  { s with telegram_to_webhook := mapInsert s.telegram_to_webhook mid wid,
           webhook_to_telegram := mapInsert s.webhook_to_telegram wid mid }

/-- Lines 580-584: `if discord_msg and message_id:` — the relay correlation
is recorded only when the webhook send succeeded and the source message id
is truthy. -/
def relayMapStep (s : SyncState) (discordMsg : Option String) (mid : Option Int) :
    SyncState :=
  match discordMsg, mid with
  | some wid, some t => if t ≠ 0 then recordRelay s t wid else s
  | _, _ => s

/-- Lines 427-587: `handle_telegram_message`. A `deleted_message` update is
dispatched to the delete handler; a message from the wrong chat is
discarded; otherwise the handler composes at most one webhook post and, on
success, records the relay correlation. -/
def handle_telegram_message (wenv : WebhookEnv) (cfgChat : Int) (s : SyncState)
    (upd : TgUpdatePayload) (channelFound : Bool) : TgHandlerOutput :=
  match upd with
  | TgUpdatePayload.deleted mid => ⟨(handle_telegram_message_delete s mid channelFound).1, []⟩
  | TgUpdatePayload.empty => ⟨s, []⟩
  | TgUpdatePayload.msg m =>
    if m.chat_id ≠ cfgChat then ⟨s, []⟩
    else
      match composeWebhookPost wenv s m with
      | none => ⟨s, []⟩
      | some post => ⟨relayMapStep s wenv.sendResult m.message_id, [post]⟩

/-- Lines 756-760: the offset evolution of one successful poll cycle — for
each update, in order, after its dispatch the offset is set to
`update_id + 1`. -/
def pollCycleOffset (offset : Int) : List Int → Int
  | [] => offset
  | u :: rest => pollCycleOffset (u + 1) rest

/-- One poll cycle threading the dispatch of each update through an
arbitrary state transformer (the dispatch target, `handle_telegram_message`,
catches all exceptions, so dispatch always returns and the offset is
advanced regardless of what it did). Returns the final state and offset. -/
def pollCycle (dispatch : SyncState → Int → SyncState) (s : SyncState) (offset : Int) :
    List Int → SyncState × Int
  | [] => (s, offset)
  | u :: rest => pollCycle dispatch (dispatch s u) (u + 1) rest

/-- Observable events of a poll cycle: the dispatch of an update and the
acknowledgement (offset advance past that update's id) that follows it. -/
inductive PollEvent where
  | dispatch (uid : Int)
  | ack (uid : Int)
  deriving DecidableEq

/-- The event trace of one poll cycle: lines 757-760 dispatch each update
and only then advance the offset. -/
def pollCycleEvents : List Int → List PollEvent
  | [] => []
  | u :: rest => PollEvent.dispatch u :: PollEvent.ack u :: pollCycleEvents rest

/-- The Telegram counterpart id recorded for a Discord message id, if any. -/
def d2tId (s : SyncState) (d : String) : Option Int :=
  (mapLookup s.discord_to_telegram d).map (fun v => v.1)

/-- The Discord counterpart id recorded for a Telegram message id, if any. -/
def t2dId (s : SyncState) (t : Int) : Option String :=
  (mapLookup s.telegram_to_discord t).map (fun v => v.1)

/-- The claimed store invariant on the two direct correlation tables: the
tables are mutually inverse, so each message reference participates in at
most one correlation (whenever `discord_to_telegram` maps `d` to `t`,
`telegram_to_discord` maps `t` back to `d`, and since each table binds a
key at most once no other entry in either direction mentions `d` or `t`). -/
def DirectInv (s : SyncState) : Prop :=
  (∀ d t, d2tId s d = some t → t2dId s t = some d) ∧
  (∀ t d, t2dId s t = some d → d2tId s d = some t)

/-- The caption carried by an outbound Telegram request (media sends only). -/
def sendCaption : TgSend → Option String
  | TgSend.msg _ _ _ => none
  | TgSend.photo _ _ c _ => some c
  | TgSend.video _ _ c _ => some c
  | TgSend.document _ _ c _ => some c

/-- The reply_to field of an outbound Telegram request. -/
def sendReplyTo : TgSend → Option Int
  | TgSend.msg _ _ rt => rt
  | TgSend.photo _ _ _ rt => rt
  | TgSend.video _ _ _ rt => rt
  | TgSend.document _ _ _ rt => rt

/-- The empty store (process start, lines 195-204). -/
def sEmpty : SyncState := ⟨[], [], [], [], 0⟩

/-- An environment where every outbound call returns `ok` with id 9. -/
def envOK : Nat → SendResult := fun _ => SendResult.resp ⟨true, 9⟩

/-- Environment for the C2 counterexample: the first call (the standalone
text send) succeeds with message id 5, every later call returns a
non-success response. -/
def envC2 : Nat → SendResult := fun n =>
  if n = 0 then SendResult.resp ⟨true, 5⟩ else SendResult.resp ⟨false, 0⟩

/-- Environment for the C6 counterexample: the first call returns a
non-success response, every later call succeeds with id 9. -/
def envC6 : Nat → SendResult := fun n =>
  if n = 0 then SendResult.resp ⟨false, 0⟩ else SendResult.resp ⟨true, 9⟩

/-- Environment for the C5 counterexample: every call succeeds but returns
message id 5, which the store already correlates with another message. -/
def envC5 : Nat → SendResult := fun _ => SendResult.resp ⟨true, 5⟩

/-- A store already holding the correlation Discord "1" ↔ Telegram 5. -/
def sPair : SyncState :=
  ⟨[("1", (5, "A", 1))], [(5, ("1", "A", 1))], [], [], 0⟩

/-- Discord message for the C2 counterexample: text plus one attachment. -/
def mC2 : DiscordMessage := ⟨1, "hi", "Ann", 4, none, [⟨"u", none⟩]⟩

/-- Discord message for the C3 counterexample: text plus one image. -/
def mC3 : DiscordMessage := ⟨1, "hi", "Ann", 4, none, [⟨"u", some "image/png"⟩]⟩

/-- Discord message for the C5 counterexample: a fresh message whose send
will collide with the Telegram id already in the store. -/
def mC5 : DiscordMessage := ⟨2, "x", "B", 2, none, []⟩

/-- Discord message for the C6 counterexample: two attachments, no text. -/
def mC6 : DiscordMessage := ⟨1, "", "Ann", 4, none, [⟨"u1", none⟩, ⟨"u2", some "image/png"⟩]⟩

/-- Discord message replying to the unrecorded id 3. -/
def mC8 : DiscordMessage := ⟨4, "yo", "Bo", 2, some 3, []⟩

/-- Discord message with no text and no attachments. -/
def mC10 : DiscordMessage := ⟨3, "", "A", 1, none, []⟩

/-- A concrete webhook environment for witnesses. -/
def wenvW : WebhookEnv := ⟨"a", fun _ => none, none⟩

theorem mapErase_cons {K V : Type} [DecidableEq K] (k1 : K) (v1 : V) (rest : List (K × V))
    (k : K) :
    mapErase ((k1, v1) :: rest) k =
      if k1 = k then mapErase rest k else (k1, v1) :: mapErase rest k := by
  simp only [mapErase, List.filter_cons]
  by_cases h : k1 = k <;> simp [h]

theorem mapLookup_erase {K V : Type} [DecidableEq K] (m : List (K × V)) (k k' : K) :
    mapLookup (mapErase m k) k' = if k' = k then none else mapLookup m k' := by
  induction m with
  | nil => simp [mapErase, mapLookup]
  | cons p rest ih =>
    obtain ⟨k1, v1⟩ := p
    rw [mapErase_cons]
    by_cases h1 : k1 = k
    · rw [if_pos h1, ih]
      subst h1
      by_cases h2 : k' = k1 <;> simp [mapLookup, h2]
    · rw [if_neg h1]
      simp only [mapLookup]
      rw [ih]
      by_cases h2 : k' = k1 <;> by_cases h3 : k' = k
      · exact absurd (h2.symm.trans h3) h1
      · simp [h2, h3, h1]
      · simp [h2, h3, h1, Ne.symm h1]
      · simp [h2, h3]

theorem mapLookup_insert {K V : Type} [DecidableEq K] (m : List (K × V)) (k k' : K) (v : V) :
    mapLookup (mapInsert m k v) k' = if k' = k then some v else mapLookup m k' := by
  unfold mapInsert
  by_cases h : k' = k
  · simp [mapLookup, h]
  · simp only [mapLookup, if_neg h]
    rw [mapLookup_erase, if_neg h]

theorem finishRecord_raised_eq (s : SyncState) (m : DiscordMessage) (ss : List TgSend)
    (l : Option TgResponse) : finishRecord s m ss l true = ⟨s, ss, ["Error processing Discord message"], l, true⟩ := rfl

theorem finishRecord_none_eq (s : SyncState) (m : DiscordMessage) (ss : List TgSend) :
    finishRecord s m ss none false = ⟨s, ss, [], none, false⟩ := rfl

theorem finishRecord_ok_eq (s : SyncState) (m : DiscordMessage) (ss : List TgSend)
    (r : TgResponse) (h : r.ok = true) :
    finishRecord s m ss (some r) false =
      ⟨recordDirect s (toString m.id) r.message_id m.author_display_name m.author_id,
        ss, [], some r, false⟩ := by
  simp [finishRecord, h]

theorem finishRecord_notok_eq (s : SyncState) (m : DiscordMessage) (ss : List TgSend)
    (r : TgResponse) (h : r.ok = false) :
    finishRecord s m ss (some r) false = ⟨s, ss, [], some r, false⟩ := by
  simp [finishRecord, h]

theorem finishRecord_sends (s : SyncState) (m : DiscordMessage) (ss : List TgSend)
    (l : Option TgResponse) (b : Bool) : (finishRecord s m ss l b).sends = ss := by
  cases b
  · cases l with
    | none => rfl
    | some r =>
      cases h : r.ok
      · rw [finishRecord_notok_eq s m ss r h]
      · rw [finishRecord_ok_eq s m ss r h]
  · rfl

theorem finishRecord_raised (s : SyncState) (m : DiscordMessage) (ss : List TgSend)
    (l : Option TgResponse) (b : Bool) : (finishRecord s m ss l b).raised = b := by
  cases b
  · cases l with
    | none => rfl
    | some r =>
      cases h : r.ok
      · rw [finishRecord_notok_eq s m ss r h]
      · rw [finishRecord_ok_eq s m ss r h]
  · rfl

theorem finishRecord_lastResp (s : SyncState) (m : DiscordMessage) (ss : List TgSend)
    (l : Option TgResponse) (b : Bool) : (finishRecord s m ss l b).lastResp = l := by
  cases b
  · cases l with
    | none => rfl
    | some r =>
      cases h : r.ok
      · rw [finishRecord_notok_eq s m ss r h]
      · rw [finishRecord_ok_eq s m ss r h]
  · rfl

theorem finishRecord_logs_false (s : SyncState) (m : DiscordMessage) (ss : List TgSend)
    (l : Option TgResponse) : (finishRecord s m ss l false).logs = [] := by
  cases l with
  | none => rfl
  | some r =>
    cases h : r.ok
    · rw [finishRecord_notok_eq s m ss r h]
    · rw [finishRecord_ok_eq s m ss r h]

theorem hdm_sends (env : Nat → SendResult) (chatId : Int) (s : SyncState)
    (m : DiscordMessage) :
    (handle_discord_message env chatId s m).sends = (discordSendPhase env chatId s m).1 :=
  finishRecord_sends s m _ _ _

theorem hdm_raised (env : Nat → SendResult) (chatId : Int) (s : SyncState)
    (m : DiscordMessage) :
    (handle_discord_message env chatId s m).raised = (discordSendPhase env chatId s m).2.2 :=
  finishRecord_raised s m _ _ _

theorem hdm_lastResp (env : Nat → SendResult) (chatId : Int) (s : SyncState)
    (m : DiscordMessage) :
    (handle_discord_message env chatId s m).lastResp = (discordSendPhase env chatId s m).2.1 :=
  finishRecord_lastResp s m _ _ _

/-- The state after `handle_discord_message` is either unchanged or is
exactly the double insertion of the final, successful response. -/
theorem hdm_state_cases (env : Nat → SendResult) (chatId : Int) (s : SyncState)
    (m : DiscordMessage) :
    (handle_discord_message env chatId s m).state = s ∨
    (∃ r, (handle_discord_message env chatId s m).lastResp = some r ∧ r.ok = true ∧
      (handle_discord_message env chatId s m).state =
        recordDirect s (toString m.id) r.message_id m.author_display_name m.author_id) := by
  unfold handle_discord_message
  cases hb : (discordSendPhase env chatId s m).2.2
  · cases hl : (discordSendPhase env chatId s m).2.1 with
    | none => left; rw [finishRecord_none_eq]
    | some r =>
      cases hok : r.ok
      · left; rw [finishRecord_notok_eq s m _ r hok]
      · right
        exact ⟨r, by rw [finishRecord_ok_eq s m _ r hok], hok,
          by rw [finishRecord_ok_eq s m _ r hok]⟩
  · left; rw [finishRecord_raised_eq]

theorem sendCaption_attachmentSend (chatId : Int) (a : Attachment) (cap : String)
    (rt : Option Int) : sendCaption (attachmentSend chatId a cap rt) = some cap := by
  cases h : a.content_type with
  | none => simp [attachmentSend, sendCaption, h]
  | some ct =>
    simp only [attachmentSend, h]
    by_cases h1 : ct ≠ ""
    · rw [if_pos h1]
      by_cases h2 : strStartsWith ct "image/"
      · simp [h2, sendCaption]
      · by_cases h3 : strStartsWith ct "video/" <;> simp [h2, h3, sendCaption]
    · rw [if_neg h1]; rfl

theorem sendReplyTo_attachmentSend (chatId : Int) (a : Attachment) (cap : String)
    (rt : Option Int) : sendReplyTo (attachmentSend chatId a cap rt) = normReply rt := by
  cases h : a.content_type with
  | none => simp [attachmentSend, sendReplyTo, h]
  | some ct =>
    simp only [attachmentSend, h]
    by_cases h1 : ct ≠ ""
    · rw [if_pos h1]
      by_cases h2 : strStartsWith ct "image/"
      · simp [h2, sendReplyTo]
      · by_cases h3 : strStartsWith ct "video/" <;> simp [h2, h3, sendReplyTo]
    · rw [if_neg h1]; rfl

theorem attachmentLoop_caption (env : Nat → SendResult) (chatId : Int) (cap : String)
    (rt : Option Int) :
    ∀ (as : List Attachment) (n : Nat) (last : Option TgResponse),
      ∀ t ∈ (attachmentLoop env chatId cap rt as n last).1, sendCaption t = some cap := by
  intro as
  induction as with
  | nil => intro n last t ht; simp [attachmentLoop] at ht
  | cons a rest ih =>
    intro n last t ht
    simp only [attachmentLoop] at ht
    cases he : env n with
    | exn =>
      rw [he] at ht
      simp only [List.mem_singleton] at ht
      rw [ht]; exact sendCaption_attachmentSend chatId a cap rt
    | resp r =>
      rw [he] at ht
      simp only [List.mem_cons] at ht
      rcases ht with h | h
      · rw [h]; exact sendCaption_attachmentSend chatId a cap rt
      · exact ih (n + 1) (some r) t h

theorem attachmentLoop_replyTo (env : Nat → SendResult) (chatId : Int) (cap : String)
    (rt : Option Int) :
    ∀ (as : List Attachment) (n : Nat) (last : Option TgResponse),
      ∀ t ∈ (attachmentLoop env chatId cap rt as n last).1, sendReplyTo t = normReply rt := by
  intro as
  induction as with
  | nil => intro n last t ht; simp [attachmentLoop] at ht
  | cons a rest ih =>
    intro n last t ht
    simp only [attachmentLoop] at ht
    cases he : env n with
    | exn =>
      rw [he] at ht
      simp only [List.mem_singleton] at ht
      rw [ht]; exact sendReplyTo_attachmentSend chatId a cap rt
    | resp r =>
      rw [he] at ht
      simp only [List.mem_cons] at ht
      rcases ht with h | h
      · rw [h]; exact sendReplyTo_attachmentSend chatId a cap rt
      · exact ih (n + 1) (some r) t h

theorem attachmentLoop_total (env : Nat → SendResult) (chatId : Int) (cap : String)
    (rt : Option Int) (henv : ∀ k, ∃ r, env k = SendResult.resp r) :
    ∀ (as : List Attachment) (n : Nat) (last : Option TgResponse),
      (attachmentLoop env chatId cap rt as n last).2.2 = false ∧
      (attachmentLoop env chatId cap rt as n last).1.length = as.length := by
  intro as
  induction as with
  | nil => intro n last; exact ⟨rfl, rfl⟩
  | cons a rest ih =>
    intro n last
    obtain ⟨r, hr⟩ := henv n
    obtain ⟨h1, h2⟩ := ih (n + 1) (some r)
    simp only [attachmentLoop, hr]
    exact ⟨h1, by simp [h2]⟩

theorem phase_replyTo (env : Nat → SendResult) (chatId : Int) (s : SyncState)
    (m : DiscordMessage) :
    ∀ t ∈ (discordSendPhase env chatId s m).1,
      sendReplyTo t = normReply (resolveReplyTo s m) := by
  intro t ht
  simp only [discordSendPhase] at ht
  by_cases hc : m.content ≠ ""
  · rw [if_pos hc] at ht
    cases he : env 0 with
    | exn =>
      rw [he] at ht
      simp only [List.mem_singleton] at ht
      rw [ht]; rfl
    | resp r0 =>
      rw [he] at ht
      simp only [List.mem_cons] at ht
      rcases ht with h | h
      · rw [h]; rfl
      · exact attachmentLoop_replyTo env chatId (captionLine m) (resolveReplyTo s m)
          m.attachments 1 (some r0) t h
  · rw [if_neg hc] at ht
    exact attachmentLoop_replyTo env chatId (captionLine m) (resolveReplyTo s m)
      m.attachments 0 none t ht

theorem phase_text_head (env : Nat → SendResult) (chatId : Int) (s : SyncState)
    (m : DiscordMessage) (hc : m.content ≠ "") :
    ∃ tl, (discordSendPhase env chatId s m).1 =
        TgSend.msg chatId (textLine m) (normReply (resolveReplyTo s m)) :: tl ∧
      ∀ t ∈ tl, sendCaption t = some (captionLine m) := by
  simp only [discordSendPhase, if_pos hc]
  cases he : env 0 with
  | exn => exact ⟨[], rfl, by intro t ht; simp at ht⟩
  | resp r0 =>
    refine ⟨(attachmentLoop env chatId (captionLine m) (resolveReplyTo s m)
      m.attachments 1 (some r0)).1, rfl, ?_⟩
    intro t ht
    exact attachmentLoop_caption env chatId (captionLine m) (resolveReplyTo s m)
      m.attachments 1 (some r0) t ht

theorem phase_total (env : Nat → SendResult) (chatId : Int) (s : SyncState)
    (m : DiscordMessage) (henv : ∀ k, ∃ r, env k = SendResult.resp r) :
    (discordSendPhase env chatId s m).2.2 = false ∧
    (discordSendPhase env chatId s m).1.length =
      (if m.content ≠ "" then 1 else 0) + m.attachments.length := by
  simp only [discordSendPhase]
  by_cases hc : m.content ≠ ""
  · rw [if_pos hc, if_pos hc]
    obtain ⟨r0, hr0⟩ := henv 0
    rw [hr0]
    obtain ⟨h1, h2⟩ := attachmentLoop_total env chatId (captionLine m)
      (resolveReplyTo s m) henv m.attachments 1 (some r0)
    exact ⟨h1, by simp [h2, Nat.add_comm]⟩
  · rw [if_neg hc, if_neg hc]
    obtain ⟨h1, h2⟩ := attachmentLoop_total env chatId (captionLine m)
      (resolveReplyTo s m) henv m.attachments 0 none
    exact ⟨h1, by simp [h2]⟩

theorem d2tId_record (s : SyncState) (d : String) (t : Int) (nm : String) (ui : Int)
    (d' : String) :
    d2tId (recordDirect s d t nm ui) d' = if d' = d then some t else d2tId s d' := by
  unfold d2tId recordDirect
  simp only
  rw [mapLookup_insert]
  by_cases h : d' = d <;> simp [h]

theorem t2dId_record (s : SyncState) (d : String) (t : Int) (nm : String) (ui : Int)
    (t' : Int) :
    t2dId (recordDirect s d t nm ui) t' = if t' = t then some d else t2dId s t' := by
  unfold t2dId recordDirect
  simp only
  rw [mapLookup_insert]
  by_cases h : t' = t <;> simp [h]

theorem d2tId_erase (s : SyncState) (d : String) (t : Int) (d' : String) :
    d2tId (eraseDirect s d t) d' = if d' = d then none else d2tId s d' := by
  unfold d2tId eraseDirect
  simp only
  rw [mapLookup_erase]
  by_cases h : d' = d <;> simp [h]

theorem t2dId_erase (s : SyncState) (d : String) (t : Int) (t' : Int) :
    t2dId (eraseDirect s d t) t' = if t' = t then none else t2dId s t' := by
  unfold t2dId eraseDirect
  simp only
  rw [mapLookup_erase]
  by_cases h : t' = t <;> simp [h]

/-- Inserting a fresh correlation (both ids unused) preserves the store
invariant. -/
theorem directInv_record (s : SyncState) (d : String) (t : Int) (nm : String) (ui : Int)
    (hInv : DirectInv s) (hd : d2tId s d = none) (ht : t2dId s t = none) :
    DirectInv (recordDirect s d t nm ui) := by
  obtain ⟨h1, h2⟩ := hInv
  constructor
  · intro d' t' hdt
    rw [d2tId_record] at hdt
    rw [t2dId_record]
    by_cases hdd : d' = d
    · rw [if_pos hdd] at hdt
      injection hdt with hh
      subst hh
      rw [if_pos rfl, hdd]
    · rw [if_neg hdd] at hdt
      have h3 := h1 d' t' hdt
      by_cases htt : t' = t
      · subst htt
        rw [ht] at h3
        exact absurd h3 (by simp)
      · rw [if_neg htt]
        exact h3
  · intro t' d' hdt
    rw [t2dId_record] at hdt
    rw [d2tId_record]
    by_cases htt : t' = t
    · rw [if_pos htt] at hdt
      injection hdt with hh
      subst hh
      rw [if_pos rfl, htt]
    · rw [if_neg htt] at hdt
      have h3 := h2 t' d' hdt
      by_cases hdd : d' = d
      · subst hdd
        rw [hd] at h3
        exact absurd h3 (by simp)
      · rw [if_neg hdd]
        exact h3

/-- Removing the two halves of an existing correlation preserves the store
invariant. -/
theorem directInv_erase (s : SyncState) (d : String) (t : Int)
    (hInv : DirectInv s) (h : d2tId s d = some t) :
    DirectInv (eraseDirect s d t) := by
  obtain ⟨h1, h2⟩ := hInv
  have htd : t2dId s t = some d := h1 d t h
  constructor
  · intro d' t' hdt
    rw [d2tId_erase] at hdt
    rw [t2dId_erase]
    by_cases hdd : d' = d
    · rw [if_pos hdd] at hdt
      exact absurd hdt (by simp)
    · rw [if_neg hdd] at hdt
      have h3 := h1 d' t' hdt
      by_cases htt : t' = t
      · subst htt
        rw [htd] at h3
        injection h3 with hh
        exact absurd hh.symm hdd
      · rw [if_neg htt]
        exact h3
  · intro t' d' hdt
    rw [t2dId_erase] at hdt
    rw [d2tId_erase]
    by_cases htt : t' = t
    · rw [if_pos htt] at hdt
      exact absurd hdt (by simp)
    · rw [if_neg htt] at hdt
      have h3 := h2 t' d' hdt
      by_cases hdd : d' = d
      · subst hdd
        rw [h] at h3
        injection h3 with hh
        exact absurd hh.symm htt
      · rw [if_neg hdd]
        exact h3

/-- `handle_discord_message_delete` preserves the store invariant
unconditionally. -/
theorem directInv_discord_delete (dr : SendResult) (chatId : Int) (s : SyncState)
    (mid : Int) (hInv : DirectInv s) :
    DirectInv (handle_discord_message_delete dr chatId s mid).1 := by
  unfold handle_discord_message_delete
  cases hl : mapLookup s.discord_to_telegram (toString mid) with
  | none => exact hInv
  | some v =>
    cases dr with
    | exn => exact hInv
    | resp r =>
      cases hok : r.ok
      · simp only [hok, if_neg (by simp : ¬ (false = true))]
        exact hInv
      · simp only [hok, if_pos rfl]
        exact directInv_erase s (toString mid) v.1 hInv (by simp [d2tId, hl])

/-- `handle_telegram_message_delete` preserves the store invariant
unconditionally. -/
theorem directInv_telegram_delete (s : SyncState) (mid : Option Int) (cf : Bool)
    (hInv : DirectInv s) :
    DirectInv (handle_telegram_message_delete s mid cf).1 := by
  cases mid with
  | none => exact hInv
  | some t =>
    simp only [handle_telegram_message_delete]
    by_cases h0 : t = 0
    · rw [if_pos h0]; exact hInv
    · rw [if_neg h0]
      cases hl : mapLookup s.telegram_to_discord t with
      | some v =>
        have hdt : d2tId s v.1 = some t := hInv.2 t v.1 (by simp [t2dId, hl])
        exact directInv_erase s v.1 t hInv hdt
      | none =>
        cases hw : mapLookup s.telegram_to_webhook t with
        | some wid => exact hInv
        | none => exact hInv

/-- The relay-correlation step touches only the webhook tables, so the
direct-table invariant survives it. -/
theorem directInv_relayMapStep (s : SyncState) (dm : Option String) (mid : Option Int)
    (hInv : DirectInv s) : DirectInv (relayMapStep s dm mid) := by
  unfold relayMapStep
  split
  · split <;> exact hInv
  · exact hInv

/-- `handle_telegram_message` preserves the store invariant on the direct
tables unconditionally (it only inserts into the webhook tables). -/
theorem directInv_telegram_msg (wenv : WebhookEnv) (cfgChat : Int) (s : SyncState)
    (upd : TgUpdatePayload) (cf : Bool) (hInv : DirectInv s) :
    DirectInv (handle_telegram_message wenv cfgChat s upd cf).state := by
  cases upd with
  | deleted mid => exact directInv_telegram_delete s mid cf hInv
  | empty => exact hInv
  | msg m =>
    simp only [handle_telegram_message]
    by_cases hch : m.chat_id ≠ cfgChat
    · rw [if_pos hch]; exact hInv
    · rw [if_neg hch]
      cases hp : composeWebhookPost wenv s m with
      | none => exact hInv
      | some post => exact directInv_relayMapStep s wenv.sendResult m.message_id hInv

/-- With ascending update ids, a nonempty cycle ends with the offset one
past the maximal (last) id. -/
theorem pollCycleOffset_last : ∀ (uids : List Int) (offset : Int), uids ≠ [] →
    List.Chain' (fun a b => a ≤ b) uids →
    ∃ l, l ∈ uids ∧ pollCycleOffset offset uids = l + 1 ∧ ∀ u ∈ uids, u ≤ l := by
  intro uids
  induction uids with
  | nil => intro offset h; exact absurd rfl h
  | cons a rest ih =>
    intro offset _ hchain
    cases rest with
    | nil =>
      exact ⟨a, by simp, by simp [pollCycleOffset], by simp⟩
    | cons b rest' =>
      have hab : a ≤ b := (List.chain'_cons.mp hchain).1
      have hch' : List.Chain' (fun x y => x ≤ y) (b :: rest') := (List.chain'_cons.mp hchain).2
      obtain ⟨l, hl, heq, hle⟩ := ih (a + 1) (by simp) hch'
      refine ⟨l, List.mem_cons_of_mem a hl, heq, ?_⟩
      intro u hu
      rcases List.mem_cons.mp hu with h | h
      · subst h
        exact le_trans hab (hle b (List.mem_cons_self b rest'))
      · exact hle u h

/-- The final cursor of a cycle does not depend on what dispatch did: even
when the relay of an individual update fails internally, the offset still
advances past it. -/
theorem pollCycle_cursor : ∀ (uids : List Int) (dispatch : SyncState → Int → SyncState)
    (s : SyncState) (offset : Int),
    (pollCycle dispatch s offset uids).2 = pollCycleOffset offset uids := by
  intro uids
  induction uids with
  | nil => intro d s offset; rfl
  | cons a rest ih =>
    intro d s offset
    simp only [pollCycle, pollCycleOffset]
    exact ih d (d s a) (a + 1)

/-- In the poll-cycle event trace, the acknowledgement of an update comes
strictly after its dispatch. -/
theorem pollEvents_ack_after_dispatch : ∀ (uids : List Int) (n : Nat) (u : Int),
    (pollCycleEvents uids)[n]? = some (PollEvent.ack u) →
    ∃ m, m < n ∧ (pollCycleEvents uids)[m]? = some (PollEvent.dispatch u) := by
  intro uids
  induction uids with
  | nil => intro n u h; simp [pollCycleEvents] at h
  | cons a rest ih =>
    intro n u h
    match n with
    | 0 => simp [pollCycleEvents] at h
    | 1 =>
      simp only [pollCycleEvents, List.getElem?_cons_succ, List.getElem?_cons_zero] at h
      injection h with h
      injection h with h
      exact ⟨0, by omega, by simp [pollCycleEvents, h]⟩
    | Nat.succ (Nat.succ n') =>
      simp only [pollCycleEvents, List.getElem?_cons_succ] at h
      obtain ⟨k, hk, hev⟩ := ih n' u h
      exact ⟨k + 2, by omega, by simpa [pollCycleEvents, List.getElem?_cons_succ] using hev⟩

/-- C10: for every inbound Discord message whose text content is empty and
that carries no attachments, `handle_discord_message` performs no outbound
send of any kind, records no correlation, leaves all four mapping tables
(and the whole state) unchanged, emits no log, and completes without
raising. -/
theorem C10_empty_message_no_effect (env : Nat → SendResult) (chatId : Int) (s : SyncState)
    (m : DiscordMessage) (hc : m.content = "") (ha : m.attachments = []) :
    handle_discord_message env chatId s m = ⟨s, [], [], none, false⟩ := by
  simp [handle_discord_message, discordSendPhase, hc, ha, attachmentLoop, finishRecord]

/-- Witness for C10 at a concrete empty message. -/
theorem C10_empty_message_no_effect_witness :
    handle_discord_message envOK 7 sEmpty mC10 = ⟨sEmpty, [], [], none, false⟩ :=
  C10_empty_message_no_effect envOK 7 sEmpty mC10 rfl rfl

/-- C9: attachment classification (lines 304-322) — a declared content type
starting with "image/" is sent via the photo primitive, one starting with
"video/" via the video primitive, and any other or absent content type via
the document primitive. -/
theorem C9_attachment_classification (chatId : Int) (a : Attachment) (cap : String)
    (rt : Option Int) :
    (∀ ct, a.content_type = some ct → strStartsWith ct "image/" = true →
      attachmentSend chatId a cap rt = TgSend.photo chatId a.url cap (normReply rt)) ∧
    (∀ ct, a.content_type = some ct → strStartsWith ct "image/" = false →
      strStartsWith ct "video/" = true →
      attachmentSend chatId a cap rt = TgSend.video chatId a.url cap (normReply rt)) ∧
    (∀ ct, a.content_type = some ct → strStartsWith ct "image/" = false →
      strStartsWith ct "video/" = false →
      attachmentSend chatId a cap rt = TgSend.document chatId a.url cap (normReply rt)) ∧
    (a.content_type = none →
      attachmentSend chatId a cap rt = TgSend.document chatId a.url cap (normReply rt)) := by
  refine ⟨?_, ?_, ?_, ?_⟩
  · intro ct hct him
    by_cases hct0 : ct = ""
    · subst hct0
      exact absurd him (by decide)
    · simp only [attachmentSend, hct]
      rw [if_pos hct0, if_pos him]
  · intro ct hct him hvid
    by_cases hct0 : ct = ""
    · subst hct0
      exact absurd hvid (by decide)
    · simp only [attachmentSend, hct]
      rw [if_pos hct0, if_neg (by simp [him]), if_pos hvid]
  · intro ct hct him hvid
    by_cases hct0 : ct = ""
    · subst hct0
      simp [attachmentSend, hct]
    · simp only [attachmentSend, hct]
      rw [if_pos hct0, if_neg (by simp [him]), if_neg (by simp [hvid])]
  · intro hct
    simp [attachmentSend, hct]

/-- Witness for C9 at concrete image, video, other and absent content
types. -/
theorem C9_attachment_classification_witness :
    attachmentSend 7 ⟨"u", some "image/png"⟩ "c" none = TgSend.photo 7 "u" "c" none ∧
    attachmentSend 7 ⟨"u", some "video/mp4"⟩ "c" none = TgSend.video 7 "u" "c" none ∧
    attachmentSend 7 ⟨"u", some "text/plain"⟩ "c" none = TgSend.document 7 "u" "c" none ∧
    attachmentSend 7 ⟨"u", none⟩ "c" none = TgSend.document 7 "u" "c" none :=
  ⟨(C9_attachment_classification 7 ⟨"u", some "image/png"⟩ "c" none).1 "image/png" rfl
      (by decide),
   (C9_attachment_classification 7 ⟨"u", some "video/mp4"⟩ "c" none).2.1 "video/mp4" rfl
      (by decide) (by decide),
   (C9_attachment_classification 7 ⟨"u", some "text/plain"⟩ "c" none).2.2.1 "text/plain" rfl
      (by decide) (by decide),
   (C9_attachment_classification 7 ⟨"u", none⟩ "c" none).2.2.2 rfl⟩

/-- C8: a Discord message replying to an id with no recorded correlation is
processed without error and every outbound send it produces is unthreaded
(carries no reply_to hint). -/
theorem C8_unrecorded_reply_unthreaded (env : Nat → SendResult) (chatId : Int)
    (s : SyncState) (m : DiscordMessage) (rid : Int) (href : m.reference = some rid)
    (hmiss : mapLookup s.discord_to_telegram (toString rid) = none) :
    ∀ t ∈ (handle_discord_message env chatId s m).sends, sendReplyTo t = none := by
  have hrt : resolveReplyTo s m = none := by
    obtain ⟨mid, mc, mn, mui, mref, mats⟩ := m
    simp only at href
    subst href
    simp [resolveReplyTo, hmiss]
  intro t ht
  rw [hdm_sends] at ht
  rw [phase_replyTo env chatId s m t ht, hrt]
  rfl

/-- Witness for C8: a concrete reply to the unrecorded id 3 produces the
single unthreaded text send. -/
theorem C8_unrecorded_reply_unthreaded_witness :
    sendReplyTo (TgSend.msg 7 "💬 <b>Bo</b>: yo" none) = none :=
  C8_unrecorded_reply_unthreaded envOK 7 sEmpty mC8 3 rfl (by decide)
    (TgSend.msg 7 "💬 <b>Bo</b>: yo" none) (by decide)

/-- C7: `handle_discord_message_delete` mutates the correlation store if
and only if the outbound Telegram delete reports success — with no
correlation it makes no outbound call, changes nothing and raises no error;
with a correlation, an `ok` response removes both halves, while a
non-success response or an exception leaves the correlation intact. -/
theorem C7_delete_mutates_iff_success (dr : SendResult) (chatId : Int) (s : SyncState)
    (mid : Int) :
    (mapLookup s.discord_to_telegram (toString mid) = none →
      handle_discord_message_delete dr chatId s mid = (s, [], [])) ∧
    (∀ tid nm ui r, mapLookup s.discord_to_telegram (toString mid) = some (tid, nm, ui) →
      dr = SendResult.resp r → r.ok = true →
      handle_discord_message_delete dr chatId s mid =
        (eraseDirect s (toString mid) tid, [(chatId, tid)],
          ["Message deleted in Telegram: " ++ toString tid])) ∧
    (∀ tid nm ui r, mapLookup s.discord_to_telegram (toString mid) = some (tid, nm, ui) →
      dr = SendResult.resp r → r.ok = false →
      handle_discord_message_delete dr chatId s mid =
        (s, [(chatId, tid)], ["Failed to delete message in Telegram"])) ∧
    (∀ tid nm ui, mapLookup s.discord_to_telegram (toString mid) = some (tid, nm, ui) →
      dr = SendResult.exn →
      handle_discord_message_delete dr chatId s mid =
        (s, [(chatId, tid)], ["Error deleting message in Telegram"])) := by
  refine ⟨?_, ?_, ?_, ?_⟩
  · intro h
    simp [handle_discord_message_delete, h]
  · intro tid nm ui r h hdr hok
    subst hdr
    simp [handle_discord_message_delete, h, hok]
  · intro tid nm ui r h hdr hok
    subst hdr
    simp [handle_discord_message_delete, h, hok]
  · intro tid nm ui h hdr
    subst hdr
    simp [handle_discord_message_delete, h]

/-- Witness for C7: the four cases at concrete stores and delete results. -/
theorem C7_delete_mutates_iff_success_witness :
    (handle_discord_message_delete (SendResult.resp ⟨true, 1⟩) 7 sEmpty 3 = (sEmpty, [], [])) ∧
    (handle_discord_message_delete (SendResult.resp ⟨true, 1⟩) 7 sPair 1 =
      (eraseDirect sPair "1" 5, [(7, 5)], ["Message deleted in Telegram: " ++ toString (5 : Int)])) ∧
    (handle_discord_message_delete (SendResult.resp ⟨false, 1⟩) 7 sPair 1 =
      (sPair, [(7, 5)], ["Failed to delete message in Telegram"])) ∧
    (handle_discord_message_delete SendResult.exn 7 sPair 1 =
      (sPair, [(7, 5)], ["Error deleting message in Telegram"])) :=
  ⟨(C7_delete_mutates_iff_success (SendResult.resp ⟨true, 1⟩) 7 sEmpty 3).1 (by decide),
   (C7_delete_mutates_iff_success (SendResult.resp ⟨true, 1⟩) 7 sPair 1).2.1 5 "A" 1
     ⟨true, 1⟩ (by decide) rfl rfl,
   (C7_delete_mutates_iff_success (SendResult.resp ⟨false, 1⟩) 7 sPair 1).2.2.1 5 "A" 1
     ⟨false, 1⟩ (by decide) rfl rfl,
   (C7_delete_mutates_iff_success SendResult.exn 7 sPair 1).2.2.2 5 "A" 1 (by decide) rfl⟩

/-- C1: for a successfully relayed pair recorded in the store (Discord id
`d` ↔ Telegram id `t`), a subsequent delete event on either half removes
both halves, so a lookup of either ref immediately afterwards returns none.
The Discord-side path requires the outbound Telegram delete to report `ok`
(on failure the code deliberately keeps the pair, see C7), and the
Telegram-side path requires the deleted id to be truthy (`t ≠ 0`, always
the case for real Telegram ids). -/
theorem C1_insert_then_delete_empties (s : SyncState) (d t : Int) (nm : String) (ui : Int)
    (r : TgResponse) (hok : r.ok = true) (ht0 : t ≠ 0) (chatId : Int) (cf : Bool) :
    (mapLookup (handle_discord_message_delete (SendResult.resp r) chatId
        (recordDirect s (toString d) t nm ui) d).1.discord_to_telegram (toString d) = none ∧
     mapLookup (handle_discord_message_delete (SendResult.resp r) chatId
        (recordDirect s (toString d) t nm ui) d).1.telegram_to_discord t = none) ∧
    (mapLookup (handle_telegram_message_delete (recordDirect s (toString d) t nm ui)
        (some t) cf).1.discord_to_telegram (toString d) = none ∧
     mapLookup (handle_telegram_message_delete (recordDirect s (toString d) t nm ui)
        (some t) cf).1.telegram_to_discord t = none) := by
  have hl : mapLookup (recordDirect s (toString d) t nm ui).discord_to_telegram (toString d)
      = some (t, nm, ui) := by
    simp [recordDirect, mapLookup_insert]
  have hl2 : mapLookup (recordDirect s (toString d) t nm ui).telegram_to_discord t
      = some (toString d, nm, ui) := by
    simp [recordDirect, mapLookup_insert]
  constructor
  · have he : handle_discord_message_delete (SendResult.resp r) chatId
        (recordDirect s (toString d) t nm ui) d =
        (eraseDirect (recordDirect s (toString d) t nm ui) (toString d) t,
          [(chatId, t)], ["Message deleted in Telegram: " ++ toString t]) := by
      simp [handle_discord_message_delete, hl, hok]
    rw [he]
    constructor
    · simp [eraseDirect, mapLookup_erase]
    · simp [eraseDirect, mapLookup_erase]
  · have he : handle_telegram_message_delete (recordDirect s (toString d) t nm ui)
        (some t) cf =
        (eraseDirect (recordDirect s (toString d) t nm ui) (toString d) t, cf) := by
      simp [handle_telegram_message_delete, ht0, hl2]
    rw [he]
    constructor
    · simp [eraseDirect, mapLookup_erase]
    · simp [eraseDirect, mapLookup_erase]

/-- Witness for C1 at the concrete pair Discord 1 ↔ Telegram 5. -/
theorem C1_insert_then_delete_empties_witness :
    (mapLookup (handle_discord_message_delete (SendResult.resp ⟨true, 0⟩) 7
        (recordDirect sEmpty (toString (1 : Int)) 5 "A" 1) 1).1.discord_to_telegram
        (toString (1 : Int)) = none ∧
     mapLookup (handle_discord_message_delete (SendResult.resp ⟨true, 0⟩) 7
        (recordDirect sEmpty (toString (1 : Int)) 5 "A" 1) 1).1.telegram_to_discord 5 = none) ∧
    (mapLookup (handle_telegram_message_delete (recordDirect sEmpty (toString (1 : Int)) 5 "A" 1)
        (some 5) true).1.discord_to_telegram (toString (1 : Int)) = none ∧
     mapLookup (handle_telegram_message_delete (recordDirect sEmpty (toString (1 : Int)) 5 "A" 1)
        (some 5) true).1.telegram_to_discord 5 = none) :=
  C1_insert_then_delete_empties sEmpty 1 5 "A" 1 ⟨true, 0⟩ rfl (by decide) 7 true

/-- C4: across a poll cycle the cursor is non-decreasing and ends one past
the highest update id seen; the cursor advance for an update is emitted
only after that update's dispatch (an update is never acknowledged before
its processing completes); and the final cursor does not depend on what
dispatch did to the state, so it advances even when relaying an individual
update fails internally. The hypotheses are the `getUpdates(offset)`
contract: returned update ids are at least the requested offset and arrive
in ascending order. -/
theorem C4_poll_cursor (offset : Int) (uids : List Int)
    (hmem : ∀ u ∈ uids, offset ≤ u)
    (hchain : List.Chain' (fun a b => a ≤ b) uids) :
    offset ≤ pollCycleOffset offset uids ∧
    (uids = [] → pollCycleOffset offset uids = offset) ∧
    (uids ≠ [] → ∃ l, l ∈ uids ∧ pollCycleOffset offset uids = l + 1 ∧ ∀ u ∈ uids, u ≤ l) ∧
    (∀ dispatch s, (pollCycle dispatch s offset uids).2 = pollCycleOffset offset uids) ∧
    (∀ (n : Nat) (u : Int), (pollCycleEvents uids)[n]? = some (PollEvent.ack u) →
      ∃ m, m < n ∧ (pollCycleEvents uids)[m]? = some (PollEvent.dispatch u)) := by
  refine ⟨?_, ?_, ?_, ?_, ?_⟩
  · cases uids with
    | nil => exact le_refl offset
    | cons a rest =>
      obtain ⟨l, hl, heq, hle⟩ := pollCycleOffset_last (a :: rest) offset (by simp) hchain
      rw [heq]
      have := hmem l hl
      omega
  · intro h; subst h; rfl
  · intro hne
    exact pollCycleOffset_last uids offset hne hchain
  · intro dispatch s
    exact pollCycle_cursor uids dispatch s offset
  · exact pollEvents_ack_after_dispatch uids

/-- Witness for C4 at a concrete cycle: offset 2, update ids [3, 5]. -/
theorem C4_poll_cursor_witness :
    (2 : Int) ≤ pollCycleOffset 2 [3, 5] ∧
    (([3, 5] : List Int) = [] → pollCycleOffset 2 [3, 5] = 2) ∧
    (([3, 5] : List Int) ≠ [] →
      ∃ l, l ∈ ([3, 5] : List Int) ∧ pollCycleOffset 2 [3, 5] = l + 1 ∧
        ∀ u ∈ ([3, 5] : List Int), u ≤ l) ∧
    (∀ dispatch s, (pollCycle dispatch s 2 [3, 5]).2 = pollCycleOffset 2 [3, 5]) ∧
    (∀ (n : Nat) (u : Int), (pollCycleEvents [3, 5])[n]? = some (PollEvent.ack u) →
      ∃ m, m < n ∧ (pollCycleEvents [3, 5])[m]? = some (PollEvent.dispatch u)) :=
  C4_poll_cursor 2 [3, 5] (by intro u hu; fin_cases hu <;> decide)
    (by exact List.Chain.cons (by omega) List.Chain.nil)

/-- Counterexample to C2: Discord message 1 ("hi" plus one attachment); the
standalone text send succeeds with Telegram id 5, the attachment send
returns a non-success response. The last *successful* outbound send is the
text message (id 5), but the handler records nothing at all — the final
send attempt is what decides, and it failed. -/
theorem C2_counterexample :
    envC2 0 = SendResult.resp ⟨true, 5⟩ ∧
    envC2 1 = SendResult.resp ⟨false, 0⟩ ∧
    (handle_discord_message envC2 7 sEmpty mC2).sends.length = 2 ∧
    (handle_discord_message envC2 7 sEmpty mC2).lastResp = some ⟨false, 0⟩ ∧
    (handle_discord_message envC2 7 sEmpty mC2).state = sEmpty := by
  refine ⟨rfl, rfl, ?_, ?_, ?_⟩ <;> decide

/-- C2 as amended: the correlation recorded for a Discord source message is
determined solely by the final outbound send attempt — when no exception
was raised, the mapping tables gain exactly the final response's message id
if that response is `ok`, and are left unchanged otherwise, even when an
earlier send succeeded. -/
theorem C2_amended_last_attempt_decides (env : Nat → SendResult) (chatId : Int)
    (s : SyncState) (m : DiscordMessage)
    (hraise : (handle_discord_message env chatId s m).raised = false) :
    (handle_discord_message env chatId s m).state.discord_to_telegram =
      (match (handle_discord_message env chatId s m).lastResp with
       | some r =>
         if r.ok then
           mapInsert s.discord_to_telegram (toString m.id)
             (r.message_id, m.author_display_name, m.author_id)
         else s.discord_to_telegram
       | none => s.discord_to_telegram) ∧
    (handle_discord_message env chatId s m).state.telegram_to_discord =
      (match (handle_discord_message env chatId s m).lastResp with
       | some r =>
         if r.ok then
           mapInsert s.telegram_to_discord r.message_id
             (toString m.id, m.author_display_name, m.author_id)
         else s.telegram_to_discord
       | none => s.telegram_to_discord) := by
  rw [hdm_raised] at hraise
  unfold handle_discord_message
  rw [finishRecord_lastResp, hraise]
  cases hl : (discordSendPhase env chatId s m).2.1 with
  | none => rw [finishRecord_none_eq]; exact ⟨rfl, rfl⟩
  | some r =>
    cases hok : r.ok
    · rw [finishRecord_notok_eq s m _ r hok]
      simp [hok]
    · rw [finishRecord_ok_eq s m _ r hok]
      simp [hok, recordDirect]

/-- Witness for the amended C2 at a concrete all-successful run. -/
theorem C2_amended_last_attempt_decides_witness :
    (handle_discord_message envOK 7 sEmpty mC2).state.discord_to_telegram =
      (match (handle_discord_message envOK 7 sEmpty mC2).lastResp with
       | some r =>
         if r.ok then
           mapInsert sEmpty.discord_to_telegram (toString mC2.id)
             (r.message_id, mC2.author_display_name, mC2.author_id)
         else sEmpty.discord_to_telegram
       | none => sEmpty.discord_to_telegram) ∧
    (handle_discord_message envOK 7 sEmpty mC2).state.telegram_to_discord =
      (match (handle_discord_message envOK 7 sEmpty mC2).lastResp with
       | some r =>
         if r.ok then
           mapInsert sEmpty.telegram_to_discord r.message_id
             (toString mC2.id, mC2.author_display_name, mC2.author_id)
         else sEmpty.telegram_to_discord
       | none => sEmpty.telegram_to_discord) :=
  C2_amended_last_attempt_decides envOK 7 sEmpty mC2 (by decide)

/-- Counterexample to C3: Discord message 1 with text "hi" and one image
attachment, all sends succeeding. The handler performs TWO outbound sends —
the standalone text message AND the captioned photo — so the original text
is relayed twice, not once. -/
theorem C3_counterexample :
    (handle_discord_message envOK 7 sEmpty mC3).sends =
      [TgSend.msg 7 "💬 <b>Ann</b>: hi" none,
       TgSend.photo 7 "u" "<b>Ann</b>: hi" none] := by
  decide

/-- C3 as amended: when a Discord message has non-empty text, the text IS
first sent as a standalone text message (even when attachments follow), and
every subsequent attachment send additionally carries the author-plus-text
caption — the text is relayed once standalone plus once per attachment. -/
theorem C3_amended_text_sent_standalone_and_in_captions (env : Nat → SendResult)
    (chatId : Int) (s : SyncState) (m : DiscordMessage) (hc : m.content ≠ "") :
    (handle_discord_message env chatId s m).sends.head? =
      some (TgSend.msg chatId (textLine m) (normReply (resolveReplyTo s m))) ∧
    ∀ t ∈ (handle_discord_message env chatId s m).sends.tail,
      sendCaption t = some (captionLine m) := by
  obtain ⟨tl, heq, hcap⟩ := phase_text_head env chatId s m hc
  constructor
  · rw [hdm_sends, heq]; rfl
  · intro t ht
    rw [hdm_sends, heq] at ht
    exact hcap t (by simpa using ht)

/-- Witness for the amended C3 at the concrete text-plus-image message. -/
theorem C3_amended_text_sent_standalone_and_in_captions_witness :
    (handle_discord_message envOK 7 sEmpty mC3).sends.head? =
      some (TgSend.msg 7 (textLine mC3) (normReply (resolveReplyTo sEmpty mC3))) ∧
    ∀ t ∈ (handle_discord_message envOK 7 sEmpty mC3).sends.tail,
      sendCaption t = some (captionLine mC3) :=
  C3_amended_text_sent_standalone_and_in_captions envOK 7 sEmpty mC3 (by decide)

/-- Counterexample to C6: two attachments, the first send returning a
non-success response. The loop does continue to the second attachment (both
sends are attempted), but the failed unit is NOT logged — the log is empty. -/
theorem C6_counterexample :
    envC6 0 = SendResult.resp ⟨false, 0⟩ ∧
    (handle_discord_message envC6 7 sEmpty mC6).sends.length = 2 ∧
    (handle_discord_message envC6 7 sEmpty mC6).logs = [] := by
  refine ⟨rfl, ?_, ?_⟩ <;> decide

/-- C6 as amended: when every outbound call returns a response (no raised
exception), an individual attachment send returning non-success is skipped
with no retry, does not abort the remaining attachments (every unit is
attempted exactly once) and does not propagate — but it is not logged
either; nothing is logged on the response-failure path. -/
theorem C6_amended_failure_skipped_unlogged (env : Nat → SendResult) (chatId : Int)
    (s : SyncState) (m : DiscordMessage)
    (henv : ∀ k, ∃ r, env k = SendResult.resp r) :
    (handle_discord_message env chatId s m).raised = false ∧
    (handle_discord_message env chatId s m).logs = [] ∧
    (handle_discord_message env chatId s m).sends.length =
      (if m.content ≠ "" then 1 else 0) + m.attachments.length := by
  obtain ⟨h1, h2⟩ := phase_total env chatId s m henv
  refine ⟨?_, ?_, ?_⟩
  · rw [hdm_raised]; exact h1
  · unfold handle_discord_message
    rw [h1]
    exact finishRecord_logs_false s m _ _
  · rw [hdm_sends]; exact h2

/-- Witness for the amended C6 at the concrete two-attachment message with
a failing first send. -/
theorem C6_amended_failure_skipped_unlogged_witness :
    (handle_discord_message envC6 7 sEmpty mC6).raised = false ∧
    (handle_discord_message envC6 7 sEmpty mC6).logs = [] ∧
    (handle_discord_message envC6 7 sEmpty mC6).sends.length =
      (if mC6.content ≠ "" then 1 else 0) + mC6.attachments.length :=
  C6_amended_failure_skipped_unlogged envC6 7 sEmpty mC6
    (fun k => by
      unfold envC6
      by_cases h : k = 0
      · exact ⟨⟨false, 0⟩, by rw [if_pos h]⟩
      · exact ⟨⟨true, 9⟩, by rw [if_neg h]⟩)

/-- Counterexample to C5: the store already correlates Discord "1" ↔
Telegram 5 (and satisfies the invariant), and a new Discord message 2
arrives whose successful send returns the colliding Telegram id 5. The
handler silently overwrites one direction: afterwards
`discord_to_telegram` still maps "1" to 5 but `telegram_to_discord` maps 5
to "2", so the invariant is broken — message reference 5 now participates
in two correlations. -/
theorem C5_counterexample :
    DirectInv sPair ∧ ¬ DirectInv (handle_discord_message envC5 7 sPair mC5).state := by
  constructor
  · constructor
    · intro d t h
      by_cases hd : d = "1"
      · subst hd
        have hh : d2tId sPair "1" = some 5 := by decide
        rw [hh] at h
        injection h with h
        subst h
        decide
      · have hnone : d2tId sPair d = none := by
          simp [d2tId, sPair, mapLookup, hd]
        rw [hnone] at h
        exact absurd h (by simp)
    · intro t d h
      by_cases ht : t = 5
      · subst ht
        have hh : t2dId sPair 5 = some "1" := by decide
        rw [hh] at h
        injection h with h
        subst h
        decide
      · have hnone : t2dId sPair t = none := by
          simp [t2dId, sPair, mapLookup, ht]
        rw [hnone] at h
        exact absurd h (by simp)
  · intro hInv
    have h1 : d2tId (handle_discord_message envC5 7 sPair mC5).state "1" = some 5 := by
      decide
    have h2 := hInv.1 "1" 5 h1
    have h3 : t2dId (handle_discord_message envC5 7 sPair mC5).state 5 = some "2" := by
      decide
    rw [h2] at h3
    exact absurd h3 (by decide)

/-- C5 as amended: each handler preserves the direct-correlation invariant
provided the ids being inserted are fresh — for `handle_discord_message`
the source Discord id must not already be a key of `discord_to_telegram`
and the Telegram id returned by the final successful send must not already
be a key of `telegram_to_discord`; the two delete handlers and
`handle_telegram_message` preserve it unconditionally. Moreover the direct
tables are mutated by `handle_discord_message` only when the final outbound
send reported success. (Without the freshness assumptions a colliding send
id silently overwrites one direction and leaves a stale reverse entry, as
the counterexample shows.) -/
theorem C5_amended_invariant_preserved (env : Nat → SendResult) (chatId : Int)
    (s : SyncState) (m : DiscordMessage) (dmid : Int) (dr : SendResult)
    (tmid : Option Int) (cf cf2 : Bool) (wenv : WebhookEnv) (cfgChat : Int)
    (upd : TgUpdatePayload)
    (hInv : DirectInv s)
    (hd : d2tId s (toString m.id) = none)
    (ht : ∀ r, (handle_discord_message env chatId s m).lastResp = some r → r.ok = true →
      t2dId s r.message_id = none) :
    DirectInv (handle_discord_message env chatId s m).state ∧
    DirectInv (handle_discord_message_delete dr chatId s dmid).1 ∧
    DirectInv (handle_telegram_message_delete s tmid cf).1 ∧
    DirectInv (handle_telegram_message wenv cfgChat s upd cf2).state ∧
    ((handle_discord_message env chatId s m).state.discord_to_telegram ≠
        s.discord_to_telegram →
      ∃ r, (handle_discord_message env chatId s m).lastResp = some r ∧ r.ok = true) := by
  refine ⟨?_, ?_, ?_, ?_, ?_⟩
  · rcases hdm_state_cases env chatId s m with h | ⟨r, hlr, hok, hst⟩
    · rw [h]; exact hInv
    · rw [hst]
      exact directInv_record s (toString m.id) r.message_id m.author_display_name
        m.author_id hInv hd (ht r hlr hok)
  · exact directInv_discord_delete dr chatId s dmid hInv
  · exact directInv_telegram_delete s tmid cf hInv
  · exact directInv_telegram_msg wenv cfgChat s upd cf2 hInv
  · intro hne
    rcases hdm_state_cases env chatId s m with h | ⟨r, hlr, hok, _⟩
    · exact absurd (by rw [h]) hne
    · exact ⟨r, hlr, hok⟩

/-- Witness for the amended C5 starting from the empty store. -/
theorem C5_amended_invariant_preserved_witness :
    DirectInv (handle_discord_message envOK 7 sEmpty mC3).state ∧
    DirectInv (handle_discord_message_delete (SendResult.resp ⟨true, 1⟩) 7 sEmpty 3).1 ∧
    DirectInv (handle_telegram_message_delete sEmpty (some 2) true).1 ∧
    DirectInv (handle_telegram_message wenvW 5 sEmpty TgUpdatePayload.empty true).state ∧
    ((handle_discord_message envOK 7 sEmpty mC3).state.discord_to_telegram ≠
        sEmpty.discord_to_telegram →
      ∃ r, (handle_discord_message envOK 7 sEmpty mC3).lastResp = some r ∧ r.ok = true) :=
  C5_amended_invariant_preserved envOK 7 sEmpty mC3 3 (SendResult.resp ⟨true, 1⟩)
    (some 2) true true wenvW 5 TgUpdatePayload.empty
    ⟨by intro d t h; simp [d2tId, sEmpty, mapLookup] at h,
     by intro t d h; simp [t2dId, sEmpty, mapLookup] at h⟩
    (by decide)
    (by intro r h1 h2; simp [t2dId, sEmpty, mapLookup])
